import Mathlib

/-! Invoice server actions (`src/app/lib/actions.js`)

A shallow embedding of the four server actions `authenticate`, `createInvoice`,
`updateInvoice` and `deleteInvoice`.

* ECMAScript Number values are modelled exactly as IEEE 754 binary64 values
  (`JSNumber`), with correctly rounded string-to-number conversion and
  multiplication, because `createInvoice`/`updateInvoice` compute `amount * 100`
  on such values.
* The `zod` schema `FormSchema.omit({ id, date })` is modelled by `safeParse`,
  which runs every field parser and collects all issues.
* Effects (`sql`, `revalidatePath`, `redirect`) are recorded in an explicit trace
  and the `invoices` table is an explicit list of rows.
-/

set_option maxRecDepth 100000

namespace Actions

/-! ## ECMAScript Number values -/

/-- An ECMAScript Number. `fin neg m e` is the finite value `(-1)^neg * m * 2^e`.
Values produced by `roundToDouble` are canonical binary64 values: `m < 2^53`,
`-1074 ≤ e ≤ 971`, and `2^52 ≤ m` unless `e = -1074` (zero and subnormals). -/
inductive JSNumber
  | nan
  | inf (neg : Bool)
  | fin (neg : Bool) (m : Nat) (e : Int)
  deriving DecidableEq, Repr

/-- Exponent of the least significant bit of subnormal binary64 values. -/
def minExp : Int := -1074

/-- Largest exponent of the least significant bit of a finite binary64 value. -/
def maxExp : Int := 971

/-- Auxiliary for `floorLog2`, by recursion on the fuel. -/
def floorLog2Aux : Nat → Nat → Nat
  | 0, _ => 0
  | fuel + 1, n => if 2 ≤ n then floorLog2Aux fuel (n / 2) + 1 else 0

/-- The position of the leading bit of `n`: `2 ^ floorLog2 n ≤ n < 2 ^ (floorLog2 n + 1)`
for `0 < n`. -/
def floorLog2 (n : Nat) : Nat := floorLog2Aux n n

/-- Round the non-negative rational `n / d` (with `0 < d`) to the nearest binary64
value, ties to even, overflowing to infinity; `neg` is the sign of the result. -/
def roundToDouble (neg : Bool) (n d : Nat) : JSNumber :=
  if n = 0 then .fin neg 0 minExp else
  let e0 : Int := (floorLog2 n : Int) - (floorLog2 d : Int) - 52
  let e1 : Int := if n * 2 ^ (-e0).toNat < 2 ^ 52 * (d * 2 ^ e0.toNat) then e0 - 1 else e0
  let e : Int := max e1 minExp
  let N := n * 2 ^ (-e).toNat
  let D := d * 2 ^ e.toNat
  let q := N / D
  let r := N % D
  let q1 := if D < 2 * r ∨ (2 * r = D ∧ q % 2 = 1) then q + 1 else q
  if q1 = 2 ^ 53 then (if maxExp < e + 1 then .inf neg else .fin neg (2 ^ 52) (e + 1))
  else if maxExp < e then .inf neg
  else .fin neg q1 e

/-- The Number value of a non-negative integer literal such as `100`. -/
def JSNumber.ofNat (n : Nat) : JSNumber := roundToDouble false n 1

/-- The ECMAScript `*` operator on Numbers (`Number::multiply`). -/
def JSNumber.mul : JSNumber → JSNumber → JSNumber
  | .nan, _ => .nan
  | _, .nan => .nan
  | .inf s, .inf t => .inf (s != t)
  | .inf s, .fin t m _ => if m = 0 then .nan else .inf (s != t)
  | .fin s m _, .inf t => if m = 0 then .nan else .inf (s != t)
  | .fin s m e, .fin t m2 e2 =>
    if m = 0 ∨ m2 = 0 then .fin (s != t) 0 minExp
    else roundToDouble (s != t) (m * m2 * 2 ^ (e + e2).toNat) (2 ^ (-(e + e2)).toNat)

/-- The test `x <= 0` on Numbers. -/
def JSNumber.leZero : JSNumber → Bool
  | .nan => false
  | .inf neg => neg
  | .fin neg m _ => neg || m == 0

/-- The test `x > 0` on Numbers. -/
def JSNumber.gtZero : JSNumber → Bool
  | .nan => false
  | .inf neg => !neg
  | .fin neg m _ => !neg && m != 0

/-- The test `Number.isInteger(x)`. -/
def JSNumber.isInteger : JSNumber → Bool
  | .fin _ m e => m % 2 ^ (-e).toNat == 0
  | _ => false

/-! ## `Number(string)`: the StringToNumber conversion -/

/-- The characters `StrWhiteSpaceChar` (WhiteSpace and LineTerminator). -/
def isStrWhiteSpaceChar (c : Char) : Bool :=
  let n := c.toNat
  n == 0x09 || n == 0x0A || n == 0x0B || n == 0x0C || n == 0x0D || n == 0x20 || n == 0xA0
    || n == 0x1680 || (0x2000 ≤ n && n ≤ 0x200A) || n == 0x2028 || n == 0x2029
    || n == 0x202F || n == 0x205F || n == 0x3000 || n == 0xFEFF

/-- Strip leading and trailing `StrWhiteSpaceChar`s. -/
def trimWhiteSpace (cs : List Char) : List Char :=
  ((cs.dropWhile isStrWhiteSpaceChar).reverse.dropWhile isStrWhiteSpaceChar).reverse

/-- The value of a digit character in the given radix, if it is one. -/
def digitValue (radix : Nat) (c : Char) : Option Nat :=
  let n := c.toNat
  let v :=
    if 48 ≤ n ∧ n ≤ 57 then n - 48
    else if 97 ≤ n ∧ n ≤ 102 then n - 87
    else if 65 ≤ n ∧ n ≤ 70 then n - 55
    else 16
  if v < radix then some v else none

/-- Read the longest run of digits: accumulated value, number of digits read, rest. -/
def readDigits (radix : Nat) : List Char → Nat → Nat → Nat × Nat × List Char
  | [], acc, cnt => (acc, cnt, [])
  | c :: cs, acc, cnt =>
    match digitValue radix c with
    | some v => readDigits radix cs (acc * radix + v) (cnt + 1)
    | none => (acc, cnt, c :: cs)

/-- A `NonDecimalIntegerLiteral` body: at least one digit and nothing else. -/
def readRadixLiteral (radix : Nat) (cs : List Char) : JSNumber :=
  match readDigits radix cs 0 0 with
  | (v, cnt, []) => if cnt = 0 then .nan else roundToDouble false v 1
  | _ => .nan

/-- An optional `ExponentPart` followed by the end of the string: the exponent. -/
def readExponent : List Char → Option Int
  | [] => some 0
  | c :: cs =>
    if c = 'e' ∨ c = 'E' then
      let (neg, ds) :=
        match cs with
        | '+' :: r => (false, r)
        | '-' :: r => (true, r)
        | r => (false, r)
      match readDigits 10 ds 0 0 with
      | (v, cnt, []) => if cnt = 0 then none else some (if neg then -(v : Int) else (v : Int))
      | _ => none
    else none

/-- An unsigned `StrUnsignedDecimalLiteral` other than `Infinity`. -/
def readDecimalLiteral (neg : Bool) (cs : List Char) : JSNumber :=
  let (ip, icnt, r1) := readDigits 10 cs 0 0
  let (fp, fcnt, r2) :=
    match r1 with
    | '.' :: r => readDigits 10 r ip 0
    | r => (ip, 0, r)
  if icnt + fcnt = 0 then .nan else
  match readExponent r2 with
  | none => .nan
  | some x =>
    let k : Int := x - (fcnt : Int)
    roundToDouble neg (fp * 10 ^ k.toNat) (10 ^ (-k).toNat)

/-- A `StrDecimalLiteral` after its optional sign. -/
def readUnsigned (neg : Bool) (cs : List Char) : JSNumber :=
  if cs = "Infinity".toList then .inf neg else readDecimalLiteral neg cs

/-- The abstract operation StringToNumber, i.e. `Number(s)` for a string `s`. -/
def stringToNumber (s : String) : JSNumber :=
  match trimWhiteSpace s.toList with
  | [] => .fin false 0 minExp
  | '0' :: 'x' :: r => readRadixLiteral 16 r
  | '0' :: 'X' :: r => readRadixLiteral 16 r
  | '0' :: 'o' :: r => readRadixLiteral 8 r
  | '0' :: 'O' :: r => readRadixLiteral 8 r
  | '0' :: 'b' :: r => readRadixLiteral 2 r
  | '0' :: 'B' :: r => readRadixLiteral 2 r
  | '+' :: r => readUnsigned false r
  | '-' :: r => readUnsigned true r
  | r => readUnsigned false r

/-! ## Form data -/

/-- A `FormDataEntryValue`: a string, or a `File` (of which only the name is kept). -/
inductive FormDataEntryValue
  | string (s : String)
  | file (name : String)
  deriving DecidableEq, Repr

/-- A `FormData` payload: its entries, in order. -/
structure FormData where
  entries : List (String × FormDataEntryValue)
  deriving DecidableEq, Repr

/-- The method `formData.get(name)`: the first value stored under `name`, and `none`
(JavaScript `null`) when there is none. -/
def FormData.get (formData : FormData) (name : String) : Option FormDataEntryValue :=
  (formData.entries.find? (fun p => p.1 == name)).map (fun p => p.2)

/-- The conversion `Number(v)` that `z.coerce.number()` applies to its input:
`Number(null)` is `+0`, a string goes through StringToNumber, and a `File` object
converts through its string form `[object File]`. -/
def toNumber : Option FormDataEntryValue → JSNumber
  | none => .fin false 0 minExp
  | some (.string s) => stringToNumber s
  | some (.file _) => stringToNumber "[object File]"

/-! ## The schema `FormSchema.omit({ id: true, date: true })` -/

/-- The field `customerId: z.string({ invalid_type_error: ... })`: any string passes,
every other value is an `invalid_type` issue carrying the configured message. -/
def parseCustomerId : Option FormDataEntryValue → Except String String
  | some (.string s) => .ok s
  | _ => .error "Please select a customer."

/-- The field `amount: z.coerce.number().gt(0, { message: ... })`: the input is
coerced with `Number`; `NaN` is an `invalid_type` issue with the library default
message, and a value `<= 0` is a `too_small` issue with the configured message. -/
def parseAmount (v : Option FormDataEntryValue) : Except String JSNumber :=
  let n := toNumber v
  if n = .nan then .error "Expected number, received nan"
  else if n.leZero then .error "Please enter an amount greater than $0."
  else .ok n

/-- The field `status: z.enum(['pending', 'paid'], { invalid_type_error: ... })`:
a non-string is an `invalid_type` issue with the configured message, a string
outside the enumeration is an `invalid_enum_value` issue with the default message. -/
def parseStatus : Option FormDataEntryValue → Except String String
  | some (.string s) =>
    if s = "pending" ∨ s = "paid" then .ok s
    else .error ("Invalid enum value. Expected \x27pending\x27 | \x27paid\x27, received \x27"
      ++ s ++ "\x27")
  | _ => .error "Please select an invoice status."

/-- The object handed to `safeParse`. -/
structure RawFields where
  customerId : Option FormDataEntryValue
  amount : Option FormDataEntryValue
  status : Option FormDataEntryValue

/-- The `data` of a successful parse. -/
structure ValidatedFields where
  customerId : String
  amount : JSNumber
  status : String
  deriving DecidableEq, Repr

/-- A zod issue of an object schema: the key it is reported under and its message. -/
structure ZodIssue where
  path : String
  message : String
  deriving DecidableEq, Repr

/-- The issues one field contributes under its key. -/
def issuesAt {α : Type} (key : String) : Except String α → List ZodIssue
  | .ok _ => []
  | .error m => [⟨key, m⟩]

/-- The call `CreateInvoice.safeParse(raw)` (and `UpdateInvoice.safeParse`, the same
schema): every field is parsed, in shape order, and all issues are collected. -/
def safeParse (raw : RawFields) : Except (List ZodIssue) ValidatedFields :=
  match parseCustomerId raw.customerId, parseAmount raw.amount, parseStatus raw.status with
  | .ok c, .ok a, .ok s => .ok ⟨c, a, s⟩
  | c, a, s => .error (issuesAt "customerId" c ++ issuesAt "amount" a ++ issuesAt "status" s)

/-- The object `fieldErrors`: keys in insertion order with their messages. -/
abbrev FieldErrors := List (String × List String)

/-- One step of `flatten()`: append the message to the list under the issue key,
creating the key when it is new. -/
def pushFieldError (fieldErrors : FieldErrors) (issue : ZodIssue) : FieldErrors :=
  if fieldErrors.any (fun p => p.1 == issue.path) then
    fieldErrors.map (fun p => if p.1 == issue.path then (p.1, p.2 ++ [issue.message]) else p)
  else fieldErrors ++ [(issue.path, [issue.message])]

/-- The expression `error.flatten().fieldErrors`. -/
def flattenFieldErrors (issues : List ZodIssue) : FieldErrors :=
  issues.foldl pushFieldError []

/-! ## Persistence, effects and results -/

/-- A row of the `invoices` table. -/
structure Invoice where
  id : String
  customer_id : String
  amount : JSNumber
  status : String
  date : String
  deriving DecidableEq, Repr

/-- The `invoices` table. -/
abbrev Table := List Invoice

/-- The parameterized statements of the module, with their parameters in order. -/
inductive Statement
  | insert (customerId : String) (amountInCents : JSNumber) (status : String) (date : String)
  | update (customerId : String) (amountInCents : JSNumber) (status : String) (id : String)
  | delete (id : String)
  deriving DecidableEq, Repr

/-- What an accepted statement does to the table; `newId` is the identifier the
table assigns to an inserted row. -/
def Statement.apply (newId : String) : Statement → Table → Table
  | .insert customerId amountInCents status date, t =>
    t ++ [⟨newId, customerId, amountInCents, status, date⟩]
  | .update customerId amountInCents status id, t =>
    t.map (fun r => if r.id = id then ⟨r.id, customerId, amountInCents, status, r.date⟩ else r)
  | .delete id, t => t.filter (fun r => r.id ≠ id)

/-- The persistence service: whether it accepts a statement in a given table state
(a rejected statement makes the `sql` call throw), and the identifiers it assigns. -/
structure Persistence where
  accepts : Table → Statement → Bool
  newId : Table → String

/-- The call to `sql`: the new table, or `none` when the call throws. -/
def Persistence.sql (db : Persistence) (t : Table) (s : Statement) : Option Table :=
  if db.accepts t s then some (s.apply (db.newId t) t) else none

/-- The observable effects of an action. -/
inductive Effect
  | sql (s : Statement)
  | revalidatePath (path : String)
  | redirect (path : String)
  deriving DecidableEq, Repr

/-- A thrown value: an instance of `AuthError` with its `type`, or anything else. -/
inductive JSError
  | authError (type : String)
  | other (message : String)
  deriving DecidableEq, Repr

/-- How an action ends: it returns a value, is terminated by `redirect` (which never
returns to the caller), or throws. -/
inductive Completion (α : Type)
  | returned (v : α)
  | redirected (path : String)
  | threw (error : JSError)
  deriving DecidableEq, Repr

/-- The result object of the invoice actions: optional `errors`, optional `message`. -/
structure ActionState where
  errors : Option FieldErrors
  message : Option String
  deriving DecidableEq, Repr

/-- One run of an action: the effects in order, the table afterwards, the completion. -/
structure Run where
  effects : List Effect
  table : Table
  completion : Completion ActionState
  deriving DecidableEq, Repr

/-! ## The current date -/

/-- The UTC fields of a time value, as read by `new Date()`. -/
structure UTCTime where
  year : Nat
  month : Nat
  day : Nat
  hours : Nat
  minutes : Nat
  seconds : Nat
  milliseconds : Nat
  deriving DecidableEq, Repr

/-- The decimal digit character of `d % 10`. -/
def digitChar (d : Nat) : Char :=
  match d % 10 with
  | 0 => '0' | 1 => '1' | 2 => '2' | 3 => '3' | 4 => '4'
  | 5 => '5' | 6 => '6' | 7 => '7' | 8 => '8' | _ => '9'

/-- The last `k` decimal digits of `n`, zero padded. -/
def padDigits : Nat → Nat → List Char
  | 0, _ => []
  | k + 1, n => padDigits k (n / 10) ++ [digitChar n]

/-- The year of an ISO string: four digits up to 9999, else the expanded form. -/
def isoYear (y : Nat) : List Char :=
  if y ≤ 9999 then padDigits 4 y else '+' :: padDigits 6 y

/-- The calendar-date part `YYYY-MM-DD` of an ISO string. -/
def isoDate (t : UTCTime) : List Char :=
  isoYear t.year ++ ('-' :: (padDigits 2 t.month ++ ('-' :: padDigits 2 t.day)))

/-- The time part `HH:mm:ss.sssZ` of an ISO string. -/
def isoTime (t : UTCTime) : List Char :=
  padDigits 2 t.hours ++ (':' :: (padDigits 2 t.minutes ++ (':' :: (padDigits 2 t.seconds
    ++ ('.' :: (padDigits 3 t.milliseconds ++ ['Z']))))))

/-- The method `Date.prototype.toISOString`. -/
def toISOString (t : UTCTime) : String :=
  String.mk (isoDate t ++ ('T' :: isoTime t))

/-- The expression `s.split(sep)[0]`: the part of `s` before the first `sep`. -/
def splitFirst (sep : Char) (s : String) : String :=
  String.mk (s.toList.takeWhile (fun c => c != sep))

/-! ## The server actions -/

/-- The provider call `signIn(strategy, formData)` either resolves or throws. -/
inductive SignInOutcome
  | resolved
  | rejected (error : JSError)
  deriving DecidableEq, Repr

/-- One run of `authenticate`: the provider calls made and the completion; a
returned `none` is JavaScript `undefined`. -/
structure AuthRun where
  calls : List (String × FormData)
  completion : Completion (Option String)
  deriving DecidableEq, Repr

/-- The action `authenticate(prevState, formData)`. -/
def authenticate (signIn : String → FormData → SignInOutcome) (_prevState : Option String)
    (formData : FormData) : AuthRun :=
  match signIn "credentials" formData with
  | .resolved => ⟨[("credentials", formData)], .returned none⟩
  | .rejected error =>
    match error with
    | .authError type =>
      if type = "CredentialsSignin" then
        ⟨[("credentials", formData)], .returned (some "Invalid credentials.")⟩
      else ⟨[("credentials", formData)], .returned (some "Something went wrong.")⟩
    | .other _ => ⟨[("credentials", formData)], .threw error⟩

/-- The action `createInvoice(prevState, formData)`, run against the persistence
service `db`, at time `now`, on the table `table`. -/
def createInvoice (db : Persistence) (now : UTCTime) (table : Table) (_prevState : ActionState)
    (formData : FormData) : Run :=
  match safeParse ⟨formData.get "customerId", formData.get "amount", formData.get "status"⟩ with
  | .error issues =>
    ⟨[], table, .returned
      ⟨some (flattenFieldErrors issues), some "Missing Fields. Failed to Create Invoice."⟩⟩
  | .ok data =>
    let amountInCents := data.amount.mul (JSNumber.ofNat 100)
    let date := splitFirst 'T' (toISOString now)
    let stmt := Statement.insert data.customerId amountInCents data.status date
    match db.sql table stmt with
    | none =>
      ⟨[.sql stmt], table, .returned ⟨none, some "Database Error: Failed to Create Invoice."⟩⟩
    | some table2 =>
      ⟨[.sql stmt, .revalidatePath "/dashboard/invoices", .redirect "/dashboard/invoices"],
        table2, .redirected "/dashboard/invoices"⟩

/-- The action `updateInvoice(id, prevState, formData)`. -/
def updateInvoice (db : Persistence) (table : Table) (id : String) (_prevState : ActionState)
    (formData : FormData) : Run :=
  match safeParse ⟨formData.get "customerId", formData.get "amount", formData.get "status"⟩ with
  | .error issues =>
    ⟨[], table, .returned
      ⟨some (flattenFieldErrors issues), some "Missing Fields. Failed to Update Invoice."⟩⟩
  | .ok data =>
    let amountInCents := data.amount.mul (JSNumber.ofNat 100)
    let stmt := Statement.update data.customerId amountInCents data.status id
    match db.sql table stmt with
    | none =>
      ⟨[.sql stmt], table, .returned ⟨none, some "Database Error: Failed to Update Invoice."⟩⟩
    | some table2 =>
      ⟨[.sql stmt, .revalidatePath "/dashboard/invoices", .redirect "/dashboard/invoices"],
        table2, .redirected "/dashboard/invoices"⟩

/-- The `try`/`catch` block of `deleteInvoice` (the statements after its first one). -/
def deleteInvoiceTryBlock (db : Persistence) (table : Table) (id : String) : Run :=
  match db.sql table (.delete id) with
  | some table2 =>
    ⟨[.sql (.delete id), .revalidatePath "/dashboard/invoices"], table2,
      .returned ⟨none, some "Deleted Invoice."⟩⟩
  | none =>
    ⟨[.sql (.delete id)], table,
      .returned ⟨none, some "Database Error: Failed to Delete Invoice."⟩⟩

/-- How a single statement ends: control falls through to the next statement, or
an error is thrown. -/
inductive StatementEnd
  | normal
  | throws (error : JSError)

/-- The statement `throw new Error(message)`. -/
def throwNewError (message : String) : StatementEnd := .throws (.other message)

/-- The action `deleteInvoice(id)`: its first statement is
`throw new Error('Failed to Delete Invoice')`, and the `try` block follows it. -/
def deleteInvoice (db : Persistence) (table : Table) (id : String) : Run :=
  match throwNewError "Failed to Delete Invoice" with
  | .throws error => ⟨[], table, .threw error⟩
  | .normal => deleteInvoiceTryBlock db table id

/-- A request to one of the three mutation entry points. -/
inductive Operation
  | create (now : UTCTime) (prevState : ActionState) (formData : FormData)
  | update (id : String) (prevState : ActionState) (formData : FormData)
  | delete (id : String)

/-- Run one operation. -/
def Operation.run (db : Persistence) (table : Table) : Operation → Run
  | .create now prevState formData => createInvoice db now table prevState formData
  | .update id prevState formData => updateInvoice db table id prevState formData
  | .delete id => deleteInvoice db table id

/-- The table after a sequence of operations, each run on the table the previous left. -/
def runAll (db : Persistence) (table : Table) (ops : List Operation) : Table :=
  ops.foldl (fun t op => (op.run db t).table) table

/-- The data-model condition on a row: positive amount and a known status. -/
def Invoice.Valid (r : Invoice) : Prop :=
  r.amount.gtZero = true ∧ (r.status = "pending" ∨ r.status = "paid")

/-- The messages `fieldErrors` holds for one field: none when the field passes,
the message of its issue when it fails. -/
def fieldMessages {α : Type} : Except String α → Option (List String)
  | .ok _ => none
  | .error m => some [m]

/-- The statements sent to `sql` in a trace, in order. -/
def statements : List Effect → List Statement
  | [] => []
  | .sql s :: rest => s :: statements rest
  | _ :: rest => statements rest

/-- The data-model condition on the parameters of a statement that writes a row. -/
def Statement.ParamsValid : Statement → Prop
  | .insert _ amountInCents status _ =>
    amountInCents.gtZero = true ∧ (status = "pending" ∨ status = "paid")
  | .update _ amountInCents status _ =>
    amountInCents.gtZero = true ∧ (status = "pending" ∨ status = "paid")
  | .delete _ => True

/-- The claim's reading of "amount multiplied by 100", on finite values: `p` is
exactly `k` times `a` as a real number, with no rounding. This follows the wording
of the specification; the code computes `JSNumber.mul` instead. -/
def JSNumber.exactProduct (a : JSNumber) (k : Nat) (p : JSNumber) : Bool :=
  match a, p with
  | .fin s m e, .fin t m2 e2 =>
    s == t && (k * m * 2 ^ (e - min e e2).toNat == m2 * 2 ^ (e2 - min e e2).toNat)
  | _, _ => false

/-! ## Sample environments -/

/-- A persistence service that accepts every statement. -/
def acceptAll : Persistence := ⟨fun _ _ => true, fun _ => "new-id"⟩

/-- A persistence service that rejects every statement. -/
def rejectAll : Persistence := ⟨fun _ _ => false, fun _ => "new-id"⟩

/-- The time 2024-03-07T23:59:01.005Z. -/
def sampleTime : UTCTime := ⟨2024, 3, 7, 23, 59, 1, 5⟩

/-- An empty previous state. -/
def noState : ActionState := ⟨none, none⟩

/-- A form payload with the three fields as strings. -/
def invoiceForm (customerId amount status : String) : FormData :=
  ⟨[("customerId", .string customerId), ("amount", .string amount), ("status", .string status)]⟩

/-! ## Facts about rounding and multiplication -/

/-- A finite value has a binary64 exponent when its exponent is at least `minExp`. -/
def JSNumber.ExpOk : JSNumber → Prop
  | .fin _ _ e => minExp ≤ e
  | _ => True

theorem floorLog2Aux_spec (fuel : Nat) : ∀ n : Nat, n ≤ fuel → 1 ≤ n →
    2 ^ floorLog2Aux fuel n ≤ n ∧ n < 2 ^ (floorLog2Aux fuel n + 1) := by
  induction fuel with
  | zero => intro n h0 h1; omega
  | succ fuel ih =>
    intro n hn h1
    unfold floorLog2Aux
    split
    · rename_i h2
      have hih := ih (n / 2) (by omega) (by omega)
      obtain ⟨ha, hb⟩ := hih
      constructor
      · rw [pow_succ]; omega
      · rw [pow_succ]; omega
    · constructor
      · simp; omega
      · simp; omega

theorem floorLog2_spec (n : Nat) (h : 1 ≤ n) :
    2 ^ floorLog2 n ≤ n ∧ n < 2 ^ (floorLog2 n + 1) :=
  floorLog2Aux_spec n n (Nat.le_refl n) h

theorem scaled_le (n d a b : Nat) (e : Int) (ha : 2 ^ a ≤ n) (hb : d < 2 ^ b)
    (h : e + (b : Int) ≤ (a : Int)) : d * 2 ^ e.toNat ≤ n * 2 ^ (-e).toNat := by
  calc d * 2 ^ e.toNat ≤ 2 ^ b * 2 ^ e.toNat := Nat.mul_le_mul_right _ (Nat.le_of_lt hb)
    _ = 2 ^ (b + e.toNat) := (pow_add 2 b e.toNat).symm
    _ ≤ 2 ^ (a + (-e).toNat) := Nat.pow_le_pow_right (by decide) (by omega)
    _ = 2 ^ a * 2 ^ (-e).toNat := pow_add 2 a (-e).toNat
    _ ≤ n * 2 ^ (-e).toNat := Nat.mul_le_mul_right _ ha

theorem roundToDouble_expOk (neg : Bool) (n d : Nat) : (roundToDouble neg n d).ExpOk := by
  unfold roundToDouble
  split
  · exact le_refl _
  · dsimp only
    generalize (if n * 2 ^ (-((floorLog2 n : Int) - (floorLog2 d : Int) - 52)).toNat
      < 2 ^ 52 * (d * 2 ^ ((floorLog2 n : Int) - (floorLog2 d : Int) - 52).toNat)
      then (floorLog2 n : Int) - (floorLog2 d : Int) - 52 - 1
      else (floorLog2 n : Int) - (floorLog2 d : Int) - 52) = e1
    have hle : minExp ≤ max e1 minExp := le_max_right _ _
    generalize max e1 minExp = e at hle ⊢
    generalize n * 2 ^ (-e).toNat / (d * 2 ^ e.toNat) = q
    generalize n * 2 ^ (-e).toNat % (d * 2 ^ e.toNat) = r
    generalize d * 2 ^ e.toNat = D
    generalize (if D < 2 * r ∨ (2 * r = D ∧ q % 2 = 1) then q + 1 else q) = q1
    split
    · split
      · trivial
      · show minExp ≤ e + 1
        omega
    · split
      · trivial
      · exact hle

theorem roundToDouble_pos (n d : Nat) (hn : n ≠ 0) (hd : d ≠ 0) (h : d ≤ n * 2 ^ 1074) :
    (roundToDouble false n d).gtZero = true := by
  have hln := floorLog2_spec n (by omega)
  have hld := floorLog2_spec d (by omega)
  unfold roundToDouble
  rw [if_neg hn]
  dsimp only
  generalize he1 : (if n * 2 ^ (-((floorLog2 n : Int) - (floorLog2 d : Int) - 52)).toNat
      < 2 ^ 52 * (d * 2 ^ ((floorLog2 n : Int) - (floorLog2 d : Int) - 52).toNat)
      then (floorLog2 n : Int) - (floorLog2 d : Int) - 52 - 1
      else (floorLog2 n : Int) - (floorLog2 d : Int) - 52) = e1
  have hle1 : e1 ≤ (floorLog2 n : Int) - (floorLog2 d : Int) - 52 := by
    rw [← he1]; split <;> omega
  generalize he : max e1 minExp = e
  have hDN : d * 2 ^ e.toNat ≤ n * 2 ^ (-e).toNat := by
    rcases max_cases e1 minExp with ⟨h1, _⟩ | ⟨h1, _⟩
    · rw [← he, h1]
      exact scaled_le n d (floorLog2 n) (floorLog2 d + 1) e1 hln.1 hld.2 (by push_cast; omega)
    · have hz : minExp.toNat = 0 := by decide
      have hm : (-minExp).toNat = 1074 := by decide
      rw [← he, h1, hz, hm, pow_zero, mul_one]
      exact h
  have hDpos : 0 < d * 2 ^ e.toNat := Nat.mul_pos (by omega) (pow_pos (by decide) _)
  have hq : 1 ≤ n * 2 ^ (-e).toNat / (d * 2 ^ e.toNat) :=
    (Nat.one_le_div_iff hDpos).2 hDN
  generalize n * 2 ^ (-e).toNat / (d * 2 ^ e.toNat) = q at hq ⊢
  generalize n * 2 ^ (-e).toNat % (d * 2 ^ e.toNat) = r
  generalize d * 2 ^ e.toNat = D
  have hq1 : 1 ≤ (if D < 2 * r ∨ (2 * r = D ∧ q % 2 = 1) then q + 1 else q) := by
    split <;> omega
  generalize (if D < 2 * r ∨ (2 * r = D ∧ q % 2 = 1) then q + 1 else q) = q1 at hq1 ⊢
  split
  · split <;> simp [JSNumber.gtZero]
  · split
    · simp [JSNumber.gtZero]
    · simp only [JSNumber.gtZero, Bool.not_false, Bool.true_and, bne_iff_ne, ne_eq]
      omega

theorem ofNat_hundred : JSNumber.ofNat 100 = .fin false 7036874417766400 (-46) := by decide

theorem mul_hundred_gtZero (a : JSNumber) (hok : a.ExpOk) (hpos : a.gtZero = true) :
    (a.mul (JSNumber.ofNat 100)).gtZero = true := by
  rw [ofNat_hundred]
  cases a with
  | nan => simp [JSNumber.gtZero] at hpos
  | inf neg =>
    simp only [JSNumber.gtZero, Bool.not_eq_true'] at hpos
    subst hpos
    simp [JSNumber.mul, JSNumber.gtZero]
  | fin neg m e =>
    simp only [JSNumber.gtZero, Bool.and_eq_true, Bool.not_eq_true', bne_iff_ne, ne_eq] at hpos
    obtain ⟨hneg, hm⟩ := hpos
    subst hneg
    have he : minExp ≤ e := hok
    unfold minExp at he
    have hmul : JSNumber.mul (.fin false m e) (.fin false 7036874417766400 (-46))
        = roundToDouble false (m * 7036874417766400 * 2 ^ (e + -46).toNat)
            (2 ^ (-(e + -46)).toNat) := by
      simp [JSNumber.mul, hm]
    rw [hmul]
    apply roundToDouble_pos
    · exact Nat.mul_ne_zero (Nat.mul_ne_zero hm (by decide)) (pow_ne_zero _ (by decide))
    · exact pow_ne_zero _ (by decide)
    · have hx : (-(e + -46)).toNat ≤ 52 + 1074 := by omega
      have hmono : ∀ j k : Nat, j ≤ k → (2 : Nat) ^ j ≤ 2 ^ k :=
        fun _ _ hjk => Nat.pow_le_pow_right (by decide) hjk
      have h2 : (2 : Nat) ^ 52 ≤ m * 7036874417766400 * 2 ^ (e + -46).toNat := by
        have hm1 : 1 ≤ m := Nat.one_le_iff_ne_zero.2 hm
        have hp : 1 ≤ 2 ^ (e + -46).toNat := Nat.one_le_two_pow
        calc (2 : Nat) ^ 52 ≤ 1 * 7036874417766400 * 1 := by decide
          _ ≤ m * 7036874417766400 * 2 ^ (e + -46).toNat :=
            Nat.mul_le_mul (Nat.mul_le_mul_right _ hm1) hp
      calc (2 : Nat) ^ (-(e + -46)).toNat ≤ 2 ^ (52 + 1074) := hmono _ _ hx
        _ = 2 ^ 52 * 2 ^ 1074 := pow_add 2 52 1074
        _ ≤ m * 7036874417766400 * 2 ^ (e + -46).toNat * 2 ^ 1074 :=
          Nat.mul_le_mul_right _ h2

/-! ## Facts about `Number(...)` and the schema -/

theorem readRadixLiteral_expOk (radix : Nat) (cs : List Char) :
    (readRadixLiteral radix cs).ExpOk := by
  unfold readRadixLiteral
  split
  · split
    · trivial
    · exact roundToDouble_expOk _ _ _
  · trivial

theorem readDecimalLiteral_expOk (neg : Bool) (cs : List Char) :
    (readDecimalLiteral neg cs).ExpOk := by
  unfold readDecimalLiteral
  dsimp only
  split
  · trivial
  · split
    · trivial
    · exact roundToDouble_expOk _ _ _

theorem readUnsigned_expOk (neg : Bool) (cs : List Char) : (readUnsigned neg cs).ExpOk := by
  unfold readUnsigned
  split
  · trivial
  · exact readDecimalLiteral_expOk _ _

theorem stringToNumber_expOk (s : String) : (stringToNumber s).ExpOk := by
  unfold stringToNumber
  split
  · exact le_refl _
  all_goals first
    | exact readRadixLiteral_expOk _ _
    | exact readUnsigned_expOk _ _

theorem toNumber_expOk (v : Option FormDataEntryValue) : (toNumber v).ExpOk := by
  unfold toNumber
  split
  · exact le_refl _
  · exact stringToNumber_expOk _
  · exact stringToNumber_expOk _

theorem gtZero_iff (n : JSNumber) : n.gtZero = true ↔ n ≠ .nan ∧ n.leZero = false := by
  cases n with
  | nan => simp [JSNumber.gtZero]
  | inf neg => cases neg <;> simp [JSNumber.gtZero, JSNumber.leZero]
  | fin neg m e =>
    cases neg <;> simp [JSNumber.gtZero, JSNumber.leZero]

theorem parseAmount_ok (v : Option FormDataEntryValue) (h : (toNumber v).gtZero = true) :
    parseAmount v = .ok (toNumber v) := by
  obtain ⟨h1, h2⟩ := (gtZero_iff _).1 h
  simp [parseAmount, h1, h2]

theorem parseAmount_error (v : Option FormDataEntryValue) (h : (toNumber v).gtZero = false) :
    ∃ m, parseAmount v = .error m := by
  unfold parseAmount
  dsimp only
  split
  · exact ⟨_, rfl⟩
  · rename_i hnan
    split
    · exact ⟨_, rfl⟩
    · rename_i hle
      have : (toNumber v).gtZero = true := (gtZero_iff _).2 ⟨hnan, by simpa using hle⟩
      rw [h] at this
      cases this

theorem parseAmount_inv (v : Option FormDataEntryValue) (a : JSNumber)
    (h : parseAmount v = .ok a) : a = toNumber v ∧ a.gtZero = true := by
  unfold parseAmount at h
  dsimp only at h
  split at h
  · cases h
  · rename_i hnan
    split at h
    · cases h
    · rename_i hle
      cases h
      exact ⟨rfl, (gtZero_iff _).2 ⟨hnan, by simpa using hle⟩⟩

theorem parseStatus_inv (v : Option FormDataEntryValue) (s : String)
    (h : parseStatus v = .ok s) :
    v = some (.string s) ∧ (s = "pending" ∨ s = "paid") := by
  unfold parseStatus at h
  split at h
  · split at h
    · rename_i hs
      cases h
      exact ⟨rfl, hs⟩
    · cases h
  · cases h

theorem parseCustomerId_inv (v : Option FormDataEntryValue) (c : String)
    (h : parseCustomerId v = .ok c) : v = some (.string c) := by
  unfold parseCustomerId at h
  split at h
  · cases h; rfl
  · cases h

theorem lookup_flatten (c : Except String String) (a : Except String JSNumber)
    (s : Except String String) :
    List.lookup "customerId" (flattenFieldErrors
        (issuesAt "customerId" c ++ issuesAt "amount" a ++ issuesAt "status" s))
      = fieldMessages c ∧
    List.lookup "amount" (flattenFieldErrors
        (issuesAt "customerId" c ++ issuesAt "amount" a ++ issuesAt "status" s))
      = fieldMessages a ∧
    List.lookup "status" (flattenFieldErrors
        (issuesAt "customerId" c ++ issuesAt "amount" a ++ issuesAt "status" s))
      = fieldMessages s := by
  cases c <;> cases a <;> cases s <;>
    simp [flattenFieldErrors, issuesAt, pushFieldError, fieldMessages, List.lookup]

theorem safeParse_ok (raw : RawFields) (c : String) (a : JSNumber) (s : String)
    (hc : parseCustomerId raw.customerId = .ok c) (ha : parseAmount raw.amount = .ok a)
    (hs : parseStatus raw.status = .ok s) : safeParse raw = .ok ⟨c, a, s⟩ := by
  simp [safeParse, hc, ha, hs]

theorem safeParse_error (raw : RawFields)
    (h : fieldMessages (parseCustomerId raw.customerId) ≠ none
      ∨ fieldMessages (parseAmount raw.amount) ≠ none
      ∨ fieldMessages (parseStatus raw.status) ≠ none) :
    safeParse raw = .error (issuesAt "customerId" (parseCustomerId raw.customerId)
      ++ issuesAt "amount" (parseAmount raw.amount)
      ++ issuesAt "status" (parseStatus raw.status)) := by
  unfold safeParse
  generalize parseCustomerId raw.customerId = c at h ⊢
  generalize parseAmount raw.amount = a at h ⊢
  generalize parseStatus raw.status = s at h ⊢
  cases c <;> cases a <;> cases s <;> simp [fieldMessages] at h ⊢

theorem safeParse_inv (raw : RawFields) (data : ValidatedFields)
    (h : safeParse raw = .ok data) :
    parseCustomerId raw.customerId = .ok data.customerId
      ∧ parseAmount raw.amount = .ok data.amount
      ∧ parseStatus raw.status = .ok data.status := by
  unfold safeParse at h
  generalize parseCustomerId raw.customerId = c at h ⊢
  generalize parseAmount raw.amount = a at h ⊢
  generalize parseStatus raw.status = s at h ⊢
  cases c <;> cases a <;> cases s <;> simp at h ⊢
  subst h
  exact ⟨rfl, rfl, rfl⟩

/-! ## Facts about the date -/

theorem digitChar_ne_T (d : Nat) : digitChar d ≠ 'T' := by
  unfold digitChar
  split <;> decide

theorem padDigits_ne_T (k : Nat) : ∀ n : Nat, ∀ c ∈ padDigits k n, c ≠ 'T' := by
  induction k with
  | zero => intro n c hc; simp [padDigits] at hc
  | succ k ih =>
    intro n c hc
    simp only [padDigits, List.mem_append, List.mem_singleton] at hc
    rcases hc with hc | hc
    · exact ih _ c hc
    · rw [hc]; exact digitChar_ne_T n

theorem isoYear_ne_T (y : Nat) : ∀ c ∈ isoYear y, c ≠ 'T' := by
  intro c hc
  unfold isoYear at hc
  split at hc
  · exact padDigits_ne_T _ _ c hc
  · rcases List.mem_cons.1 hc with h | h
    · rw [h]; decide
    · exact padDigits_ne_T _ _ c h

theorem isoDate_ne_T (t : UTCTime) : ∀ c ∈ isoDate t, c ≠ 'T' := by
  intro c hc
  unfold isoDate at hc
  rcases List.mem_append.1 hc with h | h
  · exact isoYear_ne_T _ c h
  · rcases List.mem_cons.1 h with h | h
    · rw [h]; decide
    · rcases List.mem_append.1 h with h | h
      · exact padDigits_ne_T _ _ c h
      · rcases List.mem_cons.1 h with h | h
        · rw [h]; decide
        · exact padDigits_ne_T _ _ c h

theorem takeWhile_append_sep (p : Char → Bool) (a : Char) (r : List Char) (ha : p a = false) :
    ∀ l : List Char, (∀ c ∈ l, p c = true) → (l ++ a :: r).takeWhile p = l := by
  intro l
  induction l with
  | nil => intro _; simp [List.takeWhile, ha]
  | cons x xs ih =>
    intro h
    have hx : p x = true := h x (List.mem_cons_self _ _)
    have hxs : ∀ c ∈ xs, p c = true := fun c hc => h c (List.mem_cons_of_mem _ hc)
    simp [List.takeWhile, hx, ih hxs]

theorem currentDate_eq (now : UTCTime) :
    splitFirst 'T' (toISOString now) = String.mk (isoDate now) := by
  unfold splitFirst toISOString
  congr 1
  apply takeWhile_append_sep
  · decide
  · intro c hc
    simpa using isoDate_ne_T now c hc

/-! ## Facts about the runs -/

theorem createInvoice_of_error (db : Persistence) (now : UTCTime) (table : Table)
    (prevState : ActionState) (formData : FormData) (issues : List ZodIssue)
    (h : safeParse ⟨formData.get "customerId", formData.get "amount", formData.get "status"⟩
      = .error issues) :
    createInvoice db now table prevState formData
      = ⟨[], table, .returned
          ⟨some (flattenFieldErrors issues), some "Missing Fields. Failed to Create Invoice."⟩⟩ := by
  simp [createInvoice, h]

theorem updateInvoice_of_error (db : Persistence) (table : Table) (id : String)
    (prevState : ActionState) (formData : FormData) (issues : List ZodIssue)
    (h : safeParse ⟨formData.get "customerId", formData.get "amount", formData.get "status"⟩
      = .error issues) :
    updateInvoice db table id prevState formData
      = ⟨[], table, .returned
          ⟨some (flattenFieldErrors issues), some "Missing Fields. Failed to Update Invoice."⟩⟩ := by
  simp [updateInvoice, h]

theorem parseStatus_error (v : Option FormDataEntryValue)
    (h : v ≠ some (.string "pending") ∧ v ≠ some (.string "paid")) :
    ∃ m, parseStatus v = .error m := by
  unfold parseStatus
  split
  · rename_i s
    split
    · rename_i hs
      rcases hs with hs | hs
      · exact absurd (by rw [hs]) h.1
      · exact absurd (by rw [hs]) h.2
    · exact ⟨_, rfl⟩
  · exact ⟨_, rfl⟩

theorem lookup_ne_nil (key : String) (errors : FieldErrors) (ms : List String)
    (h : List.lookup key errors = some ms) : errors ≠ [] := by
  intro he
  rw [he] at h
  simp [List.lookup] at h

theorem createInvoice_of_ok (db : Persistence) (now : UTCTime) (table : Table)
    (prevState : ActionState) (formData : FormData) (data : ValidatedFields)
    (h : safeParse ⟨formData.get "customerId", formData.get "amount", formData.get "status"⟩
      = .ok data) :
    createInvoice db now table prevState formData
      = match db.sql table (.insert data.customerId (data.amount.mul (JSNumber.ofNat 100))
          data.status (String.mk (isoDate now))) with
        | none =>
          ⟨[.sql (.insert data.customerId (data.amount.mul (JSNumber.ofNat 100))
              data.status (String.mk (isoDate now)))], table,
            .returned ⟨none, some "Database Error: Failed to Create Invoice."⟩⟩
        | some table2 =>
          ⟨[.sql (.insert data.customerId (data.amount.mul (JSNumber.ofNat 100))
              data.status (String.mk (isoDate now))),
            .revalidatePath "/dashboard/invoices", .redirect "/dashboard/invoices"],
            table2, .redirected "/dashboard/invoices"⟩ := by
  simp only [createInvoice, h, currentDate_eq]

theorem updateInvoice_of_ok (db : Persistence) (table : Table) (id : String)
    (prevState : ActionState) (formData : FormData) (data : ValidatedFields)
    (h : safeParse ⟨formData.get "customerId", formData.get "amount", formData.get "status"⟩
      = .ok data) :
    updateInvoice db table id prevState formData
      = match db.sql table (.update data.customerId (data.amount.mul (JSNumber.ofNat 100))
          data.status id) with
        | none =>
          ⟨[.sql (.update data.customerId (data.amount.mul (JSNumber.ofNat 100))
              data.status id)], table,
            .returned ⟨none, some "Database Error: Failed to Update Invoice."⟩⟩
        | some table2 =>
          ⟨[.sql (.update data.customerId (data.amount.mul (JSNumber.ofNat 100))
              data.status id),
            .revalidatePath "/dashboard/invoices", .redirect "/dashboard/invoices"],
            table2, .redirected "/dashboard/invoices"⟩ := by
  simp only [updateInvoice, h]

theorem createInvoice_cases (db : Persistence) (now : UTCTime) (table : Table)
    (prevState : ActionState) (formData : FormData) :
    (∃ issues,
      safeParse ⟨formData.get "customerId", formData.get "amount", formData.get "status"⟩
        = .error issues
      ∧ createInvoice db now table prevState formData
        = ⟨[], table, .returned
            ⟨some (flattenFieldErrors issues), some "Missing Fields. Failed to Create Invoice."⟩⟩)
    ∨ ∃ data,
      safeParse ⟨formData.get "customerId", formData.get "amount", formData.get "status"⟩
        = .ok data
      ∧ ((db.accepts table (.insert data.customerId (data.amount.mul (JSNumber.ofNat 100))
            data.status (String.mk (isoDate now))) = false
          ∧ createInvoice db now table prevState formData
            = ⟨[.sql (.insert data.customerId (data.amount.mul (JSNumber.ofNat 100))
                data.status (String.mk (isoDate now)))], table,
              .returned ⟨none, some "Database Error: Failed to Create Invoice."⟩⟩)
        ∨ (db.accepts table (.insert data.customerId (data.amount.mul (JSNumber.ofNat 100))
            data.status (String.mk (isoDate now))) = true
          ∧ createInvoice db now table prevState formData
            = ⟨[.sql (.insert data.customerId (data.amount.mul (JSNumber.ofNat 100))
                data.status (String.mk (isoDate now))),
              .revalidatePath "/dashboard/invoices", .redirect "/dashboard/invoices"],
              Statement.apply (db.newId table) (.insert data.customerId
                (data.amount.mul (JSNumber.ofNat 100)) data.status (String.mk (isoDate now)))
                table,
              .redirected "/dashboard/invoices"⟩)) := by
  cases hsp : safeParse
    ⟨formData.get "customerId", formData.get "amount", formData.get "status"⟩ with
  | error issues =>
    exact Or.inl ⟨issues, rfl, createInvoice_of_error db now table prevState formData _ hsp⟩
  | ok data =>
    refine Or.inr ⟨data, rfl, ?_⟩
    rw [createInvoice_of_ok db now table prevState formData _ hsp]
    cases hdb : db.accepts table (.insert data.customerId
      (data.amount.mul (JSNumber.ofNat 100)) data.status (String.mk (isoDate now)))
    · left; simp [Persistence.sql, hdb]
    · right; simp [Persistence.sql, hdb]

theorem updateInvoice_cases (db : Persistence) (table : Table) (id : String)
    (prevState : ActionState) (formData : FormData) :
    (∃ issues,
      safeParse ⟨formData.get "customerId", formData.get "amount", formData.get "status"⟩
        = .error issues
      ∧ updateInvoice db table id prevState formData
        = ⟨[], table, .returned
            ⟨some (flattenFieldErrors issues), some "Missing Fields. Failed to Update Invoice."⟩⟩)
    ∨ ∃ data,
      safeParse ⟨formData.get "customerId", formData.get "amount", formData.get "status"⟩
        = .ok data
      ∧ ((db.accepts table (.update data.customerId (data.amount.mul (JSNumber.ofNat 100))
            data.status id) = false
          ∧ updateInvoice db table id prevState formData
            = ⟨[.sql (.update data.customerId (data.amount.mul (JSNumber.ofNat 100))
                data.status id)], table,
              .returned ⟨none, some "Database Error: Failed to Update Invoice."⟩⟩)
        ∨ (db.accepts table (.update data.customerId (data.amount.mul (JSNumber.ofNat 100))
            data.status id) = true
          ∧ updateInvoice db table id prevState formData
            = ⟨[.sql (.update data.customerId (data.amount.mul (JSNumber.ofNat 100))
                data.status id),
              .revalidatePath "/dashboard/invoices", .redirect "/dashboard/invoices"],
              Statement.apply (db.newId table) (.update data.customerId
                (data.amount.mul (JSNumber.ofNat 100)) data.status id) table,
              .redirected "/dashboard/invoices"⟩)) := by
  cases hsp : safeParse
    ⟨formData.get "customerId", formData.get "amount", formData.get "status"⟩ with
  | error issues =>
    exact Or.inl ⟨issues, rfl, updateInvoice_of_error db table id prevState formData _ hsp⟩
  | ok data =>
    refine Or.inr ⟨data, rfl, ?_⟩
    rw [updateInvoice_of_ok db table id prevState formData _ hsp]
    cases hdb : db.accepts table (.update data.customerId
      (data.amount.mul (JSNumber.ofNat 100)) data.status id)
    · left; simp [Persistence.sql, hdb]
    · right; simp [Persistence.sql, hdb]

theorem validated_params (raw : RawFields) (data : ValidatedFields)
    (h : safeParse raw = .ok data) :
    data.amount = toNumber raw.amount
      ∧ (data.amount.mul (JSNumber.ofNat 100)).gtZero = true
      ∧ (data.status = "pending" ∨ data.status = "paid") := by
  obtain ⟨_, ha, hs⟩ := safeParse_inv raw data h
  obtain ⟨ha1, ha2⟩ := parseAmount_inv _ _ ha
  refine ⟨ha1, mul_hundred_gtZero _ ?_ ha2, (parseStatus_inv _ _ hs).2⟩
  rw [ha1]
  exact toNumber_expOk _

theorem apply_valid (newId : String) (st : Statement) (t : Table) (hst : st.ParamsValid)
    (ht : ∀ r ∈ t, r.Valid) : ∀ r ∈ st.apply newId t, r.Valid := by
  intro r hr
  cases st with
  | insert c a s d =>
    simp only [Statement.apply, List.mem_append, List.mem_singleton] at hr
    rcases hr with hr | hr
    · exact ht r hr
    · rw [hr]; exact hst
  | update c a s id =>
    simp only [Statement.apply, List.mem_map] at hr
    obtain ⟨r0, hr0, hr1⟩ := hr
    split at hr1
    · rw [← hr1]; exact hst
    · rw [← hr1]; exact ht r0 hr0
  | delete id =>
    simp only [Statement.apply, List.mem_filter] at hr
    exact ht r hr.1

theorem flatten_shape (c : Except String String) (a : Except String JSNumber)
    (s : Except String String) :
    (∀ p ∈ flattenFieldErrors
        (issuesAt "customerId" c ++ issuesAt "amount" a ++ issuesAt "status" s), p.2 ≠ [])
    ∧ (fieldMessages c ≠ none → fieldMessages a ≠ none → fieldMessages s ≠ none →
        (flattenFieldErrors
          (issuesAt "customerId" c ++ issuesAt "amount" a ++ issuesAt "status" s)).map Prod.fst
          = ["customerId", "amount", "status"]) := by
  cases c <;> cases a <;> cases s <;>
    simp [flattenFieldErrors, issuesAt, pushFieldError, fieldMessages]

/-! ## The claims -/

/-- C1: for every form payload that is invalid for create (customerId absent, or
amount not strictly greater than 0, or status not exactly `pending` or `paid`),
`createInvoice` performs no effect at all (no statement, no cache invalidation, no
redirect), leaves the table as it was, and returns a result whose message is exactly
"Missing Fields. Failed to Create Invoice." and whose `errors` mapping is non-empty
and holds a non-empty message list under each offending field name. -/
theorem createInvoice_rejects_invalid (db : Persistence) (now : UTCTime) (table : Table)
    (prevState : ActionState) (formData : FormData)
    (h : formData.get "customerId" = none
      ∨ (toNumber (formData.get "amount")).gtZero = false
      ∨ (formData.get "status" ≠ some (.string "pending")
          ∧ formData.get "status" ≠ some (.string "paid"))) :
    ∃ errors : FieldErrors,
      createInvoice db now table prevState formData
        = ⟨[], table, .returned
            ⟨some errors, some "Missing Fields. Failed to Create Invoice."⟩⟩
      ∧ errors ≠ []
      ∧ (formData.get "customerId" = none →
          ∃ ms, List.lookup "customerId" errors = some ms ∧ ms ≠ [])
      ∧ ((toNumber (formData.get "amount")).gtZero = false →
          ∃ ms, List.lookup "amount" errors = some ms ∧ ms ≠ [])
      ∧ ((formData.get "status" ≠ some (.string "pending")
            ∧ formData.get "status" ≠ some (.string "paid")) →
          ∃ ms, List.lookup "status" errors = some ms ∧ ms ≠ []) := by
  have hc : formData.get "customerId" = none →
      fieldMessages (parseCustomerId (formData.get "customerId"))
        = some ["Please select a customer."] := by
    intro h0; rw [h0]; rfl
  have ha : (toNumber (formData.get "amount")).gtZero = false →
      ∃ m, fieldMessages (parseAmount (formData.get "amount")) = some [m] := by
    intro h0
    obtain ⟨m, hm⟩ := parseAmount_error _ h0
    exact ⟨m, by rw [hm]; rfl⟩
  have hs : (formData.get "status" ≠ some (.string "pending")
      ∧ formData.get "status" ≠ some (.string "paid")) →
      ∃ m, fieldMessages (parseStatus (formData.get "status")) = some [m] := by
    intro h0
    obtain ⟨m, hm⟩ := parseStatus_error _ h0
    exact ⟨m, by rw [hm]; rfl⟩
  have hfail : fieldMessages (parseCustomerId (formData.get "customerId")) ≠ none
      ∨ fieldMessages (parseAmount (formData.get "amount")) ≠ none
      ∨ fieldMessages (parseStatus (formData.get "status")) ≠ none := by
    rcases h with h | h | h
    · left; rw [hc h]; simp
    · right; left; obtain ⟨m, hm⟩ := ha h; rw [hm]; simp
    · right; right; obtain ⟨m, hm⟩ := hs h; rw [hm]; simp
  have hparse := safeParse_error
    ⟨formData.get "customerId", formData.get "amount", formData.get "status"⟩ hfail
  obtain ⟨l1, l2, l3⟩ := lookup_flatten (parseCustomerId (formData.get "customerId"))
    (parseAmount (formData.get "amount")) (parseStatus (formData.get "status"))
  refine ⟨_, createInvoice_of_error db now table prevState formData _ hparse, ?_, ?_, ?_, ?_⟩
  · rcases h with h | h | h
    · exact lookup_ne_nil _ _ _ (l1.trans (hc h))
    · obtain ⟨m, hm⟩ := ha h
      exact lookup_ne_nil _ _ _ (l2.trans hm)
    · obtain ⟨m, hm⟩ := hs h
      exact lookup_ne_nil _ _ _ (l3.trans hm)
  · intro h0
    exact ⟨_, l1.trans (hc h0), by simp⟩
  · intro h0
    obtain ⟨m, hm⟩ := ha h0
    exact ⟨_, l2.trans hm, by simp⟩
  · intro h0
    obtain ⟨m, hm⟩ := hs h0
    exact ⟨_, l3.trans hm, by simp⟩

/-- Witness for C1 at the payload `amount = "0"`, `status = "unknown"`, no customerId. -/
theorem createInvoice_rejects_invalid_witness :
    ∃ errors : FieldErrors,
      createInvoice acceptAll sampleTime [] noState
          ⟨[("amount", .string "0"), ("status", .string "unknown")]⟩
        = ⟨[], [], .returned
            ⟨some errors, some "Missing Fields. Failed to Create Invoice."⟩⟩
      ∧ errors ≠ []
      ∧ (∃ ms, List.lookup "customerId" errors = some ms ∧ ms ≠ [])
      ∧ (∃ ms, List.lookup "amount" errors = some ms ∧ ms ≠ [])
      ∧ (∃ ms, List.lookup "status" errors = some ms ∧ ms ≠ []) := by
  obtain ⟨errors, h1, h2, h3, h4, h5⟩ := createInvoice_rejects_invalid acceptAll sampleTime []
    noState ⟨[("amount", .string "0"), ("status", .string "unknown")]⟩ (Or.inl (by decide))
  exact ⟨errors, h1, h2, h3 (by decide), h4 (by decide), h5 (by decide)⟩

/-- The create pipeline on valid input (customerId a string, amount greater than 0,
status `pending` or `paid`) with a persistence layer that accepts the statement:
`createInvoice` issues exactly one statement, the INSERT whose parameters are
customerId, the Number computed by `amount * 100`, status and the `YYYY-MM-DD` date
of the current time, which contains no `T`; it then invalidates and redirects to
"/dashboard/invoices" without returning a result object, and the table gains exactly
that row. Nothing is said here about how the computed Number relates to the exact
product. -/
theorem createInvoice_valid_inserts (db : Persistence) (now : UTCTime) (table : Table)
    (prevState : ActionState) (formData : FormData) (customerId status : String)
    (hc : formData.get "customerId" = some (.string customerId))
    (ha : (toNumber (formData.get "amount")).gtZero = true)
    (hs : formData.get "status" = some (.string status))
    (hst : status = "pending" ∨ status = "paid")
    (hdb : db.accepts table (.insert customerId
      ((toNumber (formData.get "amount")).mul (JSNumber.ofNat 100)) status
      (String.mk (isoDate now))) = true) :
    createInvoice db now table prevState formData
      = ⟨[.sql (.insert customerId
            ((toNumber (formData.get "amount")).mul (JSNumber.ofNat 100)) status
            (String.mk (isoDate now))),
          .revalidatePath "/dashboard/invoices", .redirect "/dashboard/invoices"],
          table ++ [⟨db.newId table, customerId,
            (toNumber (formData.get "amount")).mul (JSNumber.ofNat 100), status,
            String.mk (isoDate now)⟩],
          .redirected "/dashboard/invoices"⟩
    ∧ isoDate now = isoYear now.year ++ ('-' :: (padDigits 2 now.month
        ++ ('-' :: padDigits 2 now.day)))
    ∧ 'T' ∉ isoDate now := by
  have hpc : parseCustomerId (formData.get "customerId") = .ok customerId := by
    rw [hc]; rfl
  have hps : parseStatus (formData.get "status") = .ok status := by
    rw [hs]; simp [parseStatus, hst]
  have hparse := safeParse_ok
    ⟨formData.get "customerId", formData.get "amount", formData.get "status"⟩
    customerId (toNumber (formData.get "amount")) status hpc (parseAmount_ok _ ha) hps
  refine ⟨?_, rfl, fun hT => isoDate_ne_T now 'T' hT rfl⟩
  rw [createInvoice_of_ok db now table prevState formData _ hparse]
  simp [Persistence.sql, hdb, Statement.apply]

/-- The create pipeline at customerId `c1`, amount `50`, status `pending`. -/
theorem createInvoice_valid_inserts_witness :
    createInvoice acceptAll sampleTime [] noState (invoiceForm "c1" "50" "pending")
      = ⟨[.sql (.insert "c1" (JSNumber.ofNat 5000) "pending" "2024-03-07"),
          .revalidatePath "/dashboard/invoices", .redirect "/dashboard/invoices"],
          [⟨"new-id", "c1", JSNumber.ofNat 5000, "pending", "2024-03-07"⟩],
          .redirected "/dashboard/invoices"⟩ :=
  (createInvoice_valid_inserts acceptAll sampleTime [] noState
    (invoiceForm "c1" "50" "pending") "c1" "pending" (by decide) (by decide) (by decide)
    (by decide) (by decide)).1.trans (by decide)

/-- C2, the code at a valid input: for customerId `c1`, amount "19.99" (a Number
greater than 0), status `paid` and an accepting persistence layer, `createInvoice`
issues exactly one INSERT, invalidates, and redirects to "/dashboard/invoices", but
the amount parameter of that INSERT, `8791694975696895 * 2^-42`, is not the amount
multiplied by 100: it is not exactly 100 times the Number `5626684784446013 * 2^-48`
that "19.99" denotes, and it is not the Number 1999, while 1999 is exactly 100 times
the quotient 1999/100 that the submitted decimal denotes. For comparison, at amount
50 the computed product is exactly 100 times the amount. -/
theorem createInvoice_valid_amount_not_times_100 :
    createInvoice acceptAll sampleTime [] noState (invoiceForm "c1" "19.99" "paid")
      = ⟨[.sql (.insert "c1" (.fin false 8791694975696895 (-42)) "paid" "2024-03-07"),
          .revalidatePath "/dashboard/invoices", .redirect "/dashboard/invoices"],
          [⟨"new-id", "c1", .fin false 8791694975696895 (-42), "paid", "2024-03-07"⟩],
          .redirected "/dashboard/invoices"⟩
    ∧ toNumber ((invoiceForm "c1" "19.99" "paid").get "amount")
        = .fin false 5626684784446013 (-48)
    ∧ (toNumber ((invoiceForm "c1" "19.99" "paid").get "amount")).gtZero = true
    ∧ JSNumber.exactProduct (.fin false 5626684784446013 (-48)) 100
        (.fin false 8791694975696895 (-42)) = false
    ∧ JSNumber.fin false 8791694975696895 (-42) ≠ roundToDouble false (100 * 1999) 100
    ∧ roundToDouble false (100 * 1999) 100 = JSNumber.ofNat 1999
    ∧ JSNumber.exactProduct (JSNumber.ofNat 50) 100
        ((JSNumber.ofNat 50).mul (JSNumber.ofNat 100)) = true := by
  refine ⟨?_, ?_, ?_, ?_, ?_, ?_, ?_⟩ <;> decide

/-- C3, counterexample: at the payload with customerId "", amount "50", status
"pending" and an accepting persistence layer, `createInvoice` reports no error: it
issues the INSERT with the empty customerId and redirects. -/
theorem createInvoice_empty_customerId_accepted :
    createInvoice acceptAll sampleTime [] noState (invoiceForm "" "50" "pending")
      = ⟨[.sql (.insert "" (JSNumber.ofNat 5000) "pending" "2024-03-07"),
          .revalidatePath "/dashboard/invoices", .redirect "/dashboard/invoices"],
          [⟨"new-id", "", JSNumber.ofNat 5000, "pending", "2024-03-07"⟩],
          .redirected "/dashboard/invoices"⟩
    ∧ ¬ ∃ errors : FieldErrors,
        createInvoice acceptAll sampleTime [] noState (invoiceForm "" "50" "pending")
          = ⟨[], [], .returned
              ⟨some errors, some "Missing Fields. Failed to Create Invoice."⟩⟩ := by
  have h : createInvoice acceptAll sampleTime [] noState (invoiceForm "" "50" "pending")
      = ⟨[.sql (.insert "" (JSNumber.ofNat 5000) "pending" "2024-03-07"),
          .revalidatePath "/dashboard/invoices", .redirect "/dashboard/invoices"],
          [⟨"new-id", "", JSNumber.ofNat 5000, "pending", "2024-03-07"⟩],
          .redirected "/dashboard/invoices"⟩ := by decide
  refine ⟨h, ?_⟩
  rintro ⟨errors, he⟩
  rw [h] at he
  cases he

/-- C3, amended: for every payload whose customerId is absent (`formData.get` gives
`null`), `createInvoice` performs no effect, leaves the table as it was, and returns
the message "Missing Fields. Failed to Create Invoice." with, under `customerId`, the
list holding exactly "Please select a customer.". -/
theorem createInvoice_absent_customerId_rejected (db : Persistence) (now : UTCTime)
    (table : Table) (prevState : ActionState) (formData : FormData)
    (h : formData.get "customerId" = none) :
    ∃ errors : FieldErrors,
      createInvoice db now table prevState formData
        = ⟨[], table, .returned
            ⟨some errors, some "Missing Fields. Failed to Create Invoice."⟩⟩
      ∧ List.lookup "customerId" errors = some ["Please select a customer."] := by
  have hc : fieldMessages (parseCustomerId (formData.get "customerId"))
      = some ["Please select a customer."] := by
    rw [h]; rfl
  have hparse := safeParse_error
    ⟨formData.get "customerId", formData.get "amount", formData.get "status"⟩
    (Or.inl (by rw [hc]; simp))
  obtain ⟨l1, _, _⟩ := lookup_flatten (parseCustomerId (formData.get "customerId"))
    (parseAmount (formData.get "amount")) (parseStatus (formData.get "status"))
  exact ⟨_, createInvoice_of_error db now table prevState formData _ hparse, l1.trans hc⟩

/-- Witness for the amended C3 at a payload with amount "50", status "pending" and no
customerId entry. -/
theorem createInvoice_absent_customerId_rejected_witness :
    ∃ errors : FieldErrors,
      createInvoice acceptAll sampleTime [] noState
          ⟨[("amount", .string "50"), ("status", .string "pending")]⟩
        = ⟨[], [], .returned
            ⟨some errors, some "Missing Fields. Failed to Create Invoice."⟩⟩
      ∧ List.lookup "customerId" errors = some ["Please select a customer."] :=
  createInvoice_absent_customerId_rejected acceptAll sampleTime [] noState
    ⟨[("amount", .string "50"), ("status", .string "pending")]⟩ (by decide)

/-- C4, the code at every input: `deleteInvoice` throws the error "Failed to Delete
Invoice" for every id and every persistence layer, with no statement issued and the
table untouched; the `try` block that follows the `throw`, which would return
"Deleted Invoice." or "Database Error: Failed to Delete Invoice.", is never reached. -/
theorem deleteInvoice_always_throws (db : Persistence) (table : Table) (id : String) :
    deleteInvoice db table id = ⟨[], table, .threw (.other "Failed to Delete Invoice")⟩
    ∧ (deleteInvoiceTryBlock db table id).completion
        = .returned ⟨none, some (if db.accepts table (.delete id) = true then "Deleted Invoice."
            else "Database Error: Failed to Delete Invoice.")⟩ := by
  refine ⟨rfl, ?_⟩
  unfold deleteInvoiceTryBlock Persistence.sql
  cases db.accepts table (.delete id) <;> simp

/-- C5: `authenticate` calls the provider exactly once, with strategy "credentials"
and the submitted payload; an authentication error of type `CredentialsSignin` gives
exactly "Invalid credentials."; an authentication error of any other type gives
exactly "Something went wrong."; any other error is thrown again unchanged. -/
theorem authenticate_maps_outcomes (signIn : String → FormData → SignInOutcome)
    (prevState : Option String) (formData : FormData) :
    (authenticate signIn prevState formData).calls = [("credentials", formData)]
    ∧ (signIn "credentials" formData = .rejected (.authError "CredentialsSignin") →
        (authenticate signIn prevState formData).completion
          = .returned (some "Invalid credentials."))
    ∧ (∀ type : String, type ≠ "CredentialsSignin" →
        signIn "credentials" formData = .rejected (.authError type) →
        (authenticate signIn prevState formData).completion
          = .returned (some "Something went wrong."))
    ∧ (∀ message : String, signIn "credentials" formData = .rejected (.other message) →
        (authenticate signIn prevState formData).completion = .threw (.other message)) := by
  refine ⟨?_, ?_, ?_, ?_⟩
  · unfold authenticate
    split
    · rfl
    · split
      · split <;> rfl
      · rfl
  · intro h
    simp [authenticate, h]
  · intro type hne h
    simp [authenticate, h, hne]
  · intro message h
    simp [authenticate, h]

/-- Witness for C5 with providers that reject with each kind of error. -/
theorem authenticate_maps_outcomes_witness :
    (authenticate (fun _ _ => .rejected (.authError "CredentialsSignin")) none
        (invoiceForm "a" "b" "c")).completion = .returned (some "Invalid credentials.")
    ∧ (authenticate (fun _ _ => .rejected (.authError "CallbackRouteError")) none
        (invoiceForm "a" "b" "c")).completion = .returned (some "Something went wrong.")
    ∧ (authenticate (fun _ _ => .rejected (.other "ECONNREFUSED")) none
        (invoiceForm "a" "b" "c")).completion = .threw (.other "ECONNREFUSED") :=
  ⟨(authenticate_maps_outcomes (fun _ _ => .rejected (.authError "CredentialsSignin")) none
      (invoiceForm "a" "b" "c")).2.1 rfl,
    (authenticate_maps_outcomes (fun _ _ => .rejected (.authError "CallbackRouteError")) none
      (invoiceForm "a" "b" "c")).2.2.1 "CallbackRouteError" (by decide) rfl,
    (authenticate_maps_outcomes (fun _ _ => .rejected (.other "ECONNREFUSED")) none
      (invoiceForm "a" "b" "c")).2.2.2 "ECONNREFUSED" rfl⟩

/-- C6: for every id and every form payload, `updateInvoice` issues either no
statement or the single statement `UPDATE invoices SET customer_id, amount, status
WHERE id = id`, whose amount is the validated amount times 100; and the table after
the call is the table before with each row mapped to a row with the same id and the
same date, rows with a different id being mapped to themselves. -/
theorem updateInvoice_preserves_id_and_date (db : Persistence) (table : Table) (id : String)
    (prevState : ActionState) (formData : FormData) :
    (statements (updateInvoice db table id prevState formData).effects = []
      ∨ ∃ customerId status : String,
        statements (updateInvoice db table id prevState formData).effects
          = [.update customerId ((toNumber (formData.get "amount")).mul (JSNumber.ofNat 100))
              status id])
    ∧ ∃ f : Invoice → Invoice,
        (updateInvoice db table id prevState formData).table = table.map f
        ∧ ∀ r : Invoice, (f r).id = r.id ∧ (f r).date = r.date ∧ (r.id = id ∨ f r = r) := by
  rcases updateInvoice_cases db table id prevState formData with
    ⟨issues, _, hrun⟩ | ⟨data, hsp, ⟨_, hrun⟩ | ⟨_, hrun⟩⟩
  · rw [hrun]
    exact ⟨Or.inl rfl, fun r => r, by simp, fun r => ⟨rfl, rfl, Or.inr rfl⟩⟩
  · rw [hrun]
    have hamt := (validated_params _ data hsp).1
    refine ⟨Or.inr ⟨data.customerId, data.status, ?_⟩, fun r => r, by simp,
      fun r => ⟨rfl, rfl, Or.inr rfl⟩⟩
    simp only [statements]
    rw [hamt]
  · rw [hrun]
    have hamt := (validated_params _ data hsp).1
    refine ⟨Or.inr ⟨data.customerId, data.status, ?_⟩, _, rfl, ?_⟩
    · simp only [statements]
      rw [hamt]
    · intro r
      by_cases hr : r.id = id
      · simp [hr]
      · simp [hr]

/-- C7: in every run of `createInvoice` and of `updateInvoice`, when validation
fails nothing is persisted, invalidated or redirected; when validation passes,
exactly one statement is issued, and if the persistence layer rejects it the run
consists of that statement alone, leaves the table as it was and returns exactly
the message "Database Error: Failed to Create Invoice." (respectively "... Update
Invoice."), with no invalidation, no redirect and no second statement, while if the
persistence layer accepts it the run consists of that statement, then exactly one
invalidation of "/dashboard/invoices", then exactly one redirect to it. -/
theorem persist_then_invalidate_then_redirect (db : Persistence) (now : UTCTime)
    (table : Table) (id : String) (prevState : ActionState) (formData : FormData) :
    (∀ issues : List ZodIssue,
      safeParse ⟨formData.get "customerId", formData.get "amount", formData.get "status"⟩
        = .error issues →
      createInvoice db now table prevState formData
        = ⟨[], table, .returned
            ⟨some (flattenFieldErrors issues), some "Missing Fields. Failed to Create Invoice."⟩⟩
      ∧ updateInvoice db table id prevState formData
        = ⟨[], table, .returned
            ⟨some (flattenFieldErrors issues),
              some "Missing Fields. Failed to Update Invoice."⟩⟩)
    ∧ (∀ data : ValidatedFields,
      safeParse ⟨formData.get "customerId", formData.get "amount", formData.get "status"⟩
        = .ok data →
      (db.accepts table (.insert data.customerId (data.amount.mul (JSNumber.ofNat 100))
          data.status (String.mk (isoDate now))) = false →
        createInvoice db now table prevState formData
          = ⟨[.sql (.insert data.customerId (data.amount.mul (JSNumber.ofNat 100))
              data.status (String.mk (isoDate now)))], table,
            .returned ⟨none, some "Database Error: Failed to Create Invoice."⟩⟩)
      ∧ (db.accepts table (.insert data.customerId (data.amount.mul (JSNumber.ofNat 100))
          data.status (String.mk (isoDate now))) = true →
        createInvoice db now table prevState formData
          = ⟨[.sql (.insert data.customerId (data.amount.mul (JSNumber.ofNat 100))
              data.status (String.mk (isoDate now))),
            .revalidatePath "/dashboard/invoices", .redirect "/dashboard/invoices"],
            Statement.apply (db.newId table) (.insert data.customerId
              (data.amount.mul (JSNumber.ofNat 100)) data.status (String.mk (isoDate now)))
              table,
            .redirected "/dashboard/invoices"⟩)
      ∧ (db.accepts table (.update data.customerId (data.amount.mul (JSNumber.ofNat 100))
          data.status id) = false →
        updateInvoice db table id prevState formData
          = ⟨[.sql (.update data.customerId (data.amount.mul (JSNumber.ofNat 100))
              data.status id)], table,
            .returned ⟨none, some "Database Error: Failed to Update Invoice."⟩⟩)
      ∧ (db.accepts table (.update data.customerId (data.amount.mul (JSNumber.ofNat 100))
          data.status id) = true →
        updateInvoice db table id prevState formData
          = ⟨[.sql (.update data.customerId (data.amount.mul (JSNumber.ofNat 100))
              data.status id),
            .revalidatePath "/dashboard/invoices", .redirect "/dashboard/invoices"],
            Statement.apply (db.newId table) (.update data.customerId
              (data.amount.mul (JSNumber.ofNat 100)) data.status id) table,
            .redirected "/dashboard/invoices"⟩)) := by
  refine ⟨fun issues hsp => ⟨createInvoice_of_error db now table prevState formData _ hsp,
    updateInvoice_of_error db table id prevState formData _ hsp⟩, ?_⟩
  intro data hsp
  refine ⟨?_, ?_, ?_, ?_⟩
  · intro hdb
    rw [createInvoice_of_ok db now table prevState formData _ hsp]
    simp [Persistence.sql, hdb]
  · intro hdb
    rw [createInvoice_of_ok db now table prevState formData _ hsp]
    simp [Persistence.sql, hdb]
  · intro hdb
    rw [updateInvoice_of_ok db table id prevState formData _ hsp]
    simp [Persistence.sql, hdb]
  · intro hdb
    rw [updateInvoice_of_ok db table id prevState formData _ hsp]
    simp [Persistence.sql, hdb]

/-- Witness for C7 at the valid payload customerId `c1`, amount `50`, status
`pending`: a rejected INSERT, a rejected UPDATE, an accepted INSERT and an accepted
UPDATE of the row `inv-1`; and at a payload without customerId, no effect. -/
theorem persist_then_invalidate_then_redirect_witness :
    createInvoice rejectAll sampleTime [] noState (invoiceForm "c1" "50" "pending")
      = ⟨[.sql (.insert "c1" (JSNumber.ofNat 5000) "pending" "2024-03-07")], [],
          .returned ⟨none, some "Database Error: Failed to Create Invoice."⟩⟩
    ∧ updateInvoice rejectAll [⟨"inv-1", "c0", JSNumber.ofNat 700, "paid", "2023-12-31"⟩]
        "inv-1" noState (invoiceForm "c1" "50" "pending")
      = ⟨[.sql (.update "c1" (JSNumber.ofNat 5000) "pending" "inv-1")],
          [⟨"inv-1", "c0", JSNumber.ofNat 700, "paid", "2023-12-31"⟩],
          .returned ⟨none, some "Database Error: Failed to Update Invoice."⟩⟩
    ∧ createInvoice acceptAll sampleTime [] noState (invoiceForm "c1" "50" "pending")
      = ⟨[.sql (.insert "c1" (JSNumber.ofNat 5000) "pending" "2024-03-07"),
          .revalidatePath "/dashboard/invoices", .redirect "/dashboard/invoices"],
          [⟨"new-id", "c1", JSNumber.ofNat 5000, "pending", "2024-03-07"⟩],
          .redirected "/dashboard/invoices"⟩
    ∧ updateInvoice acceptAll [⟨"inv-1", "c0", JSNumber.ofNat 700, "paid", "2023-12-31"⟩]
        "inv-1" noState (invoiceForm "c1" "50" "pending")
      = ⟨[.sql (.update "c1" (JSNumber.ofNat 5000) "pending" "inv-1"),
          .revalidatePath "/dashboard/invoices", .redirect "/dashboard/invoices"],
          [⟨"inv-1", "c1", JSNumber.ofNat 5000, "pending", "2023-12-31"⟩],
          .redirected "/dashboard/invoices"⟩
    ∧ (createInvoice acceptAll sampleTime [] noState
        ⟨[("amount", .string "50"), ("status", .string "pending")]⟩).effects = [] :=
  ⟨((persist_then_invalidate_then_redirect rejectAll sampleTime [] "inv-1" noState
        (invoiceForm "c1" "50" "pending")).2 ⟨"c1", JSNumber.ofNat 50, "pending"⟩
        (by rfl)).1 (by decide) |>.trans (by decide),
    ((persist_then_invalidate_then_redirect rejectAll sampleTime
        [⟨"inv-1", "c0", JSNumber.ofNat 700, "paid", "2023-12-31"⟩] "inv-1" noState
        (invoiceForm "c1" "50" "pending")).2 ⟨"c1", JSNumber.ofNat 50, "pending"⟩
        (by rfl)).2.2.1 (by decide) |>.trans (by decide),
    ((persist_then_invalidate_then_redirect acceptAll sampleTime [] "inv-1" noState
        (invoiceForm "c1" "50" "pending")).2 ⟨"c1", JSNumber.ofNat 50, "pending"⟩
        (by rfl)).2.1 (by decide) |>.trans (by decide),
    ((persist_then_invalidate_then_redirect acceptAll sampleTime
        [⟨"inv-1", "c0", JSNumber.ofNat 700, "paid", "2023-12-31"⟩] "inv-1" noState
        (invoiceForm "c1" "50" "pending")).2 ⟨"c1", JSNumber.ofNat 50, "pending"⟩
        (by rfl)).2.2.2 (by decide) |>.trans (by decide),
    by
      have h := ((persist_then_invalidate_then_redirect acceptAll sampleTime [] "inv-1"
        noState ⟨[("amount", .string "50"), ("status", .string "pending")]⟩).1
        [⟨"customerId", "Please select a customer."⟩] (by rfl)).1
      rw [h]⟩

/-- C8, the code at amount "19.99": the INSERT carries the amount
`8791694975696895 * 2^-42`, the Number written 1998.9999999999998, which is not an
integer and is not the Number 1999 (`8791694975696896 * 2^-42`). -/
theorem createInvoice_amount_19_99 :
    createInvoice acceptAll sampleTime [] noState (invoiceForm "c1" "19.99" "pending")
      = ⟨[.sql (.insert "c1" (.fin false 8791694975696895 (-42)) "pending" "2024-03-07"),
          .revalidatePath "/dashboard/invoices", .redirect "/dashboard/invoices"],
          [⟨"new-id", "c1", .fin false 8791694975696895 (-42), "pending", "2024-03-07"⟩],
          .redirected "/dashboard/invoices"⟩
    ∧ stringToNumber "1998.9999999999998" = .fin false 8791694975696895 (-42)
    ∧ (JSNumber.fin false 8791694975696895 (-42)).isInteger = false
    ∧ JSNumber.ofNat 1999 = .fin false 8791694975696896 (-42) := by
  refine ⟨?_, ?_, ?_, ?_⟩ <;> decide

/-- C9: for every form payload that fails validation, `createInvoice` and
`updateInvoice` return the same `errors` mapping, in which each of `customerId`,
`amount`, `status` has exactly the messages of its own rule: a non-empty list when
the field violates its rule and no entry when it satisfies it; every list in the
mapping is non-empty, and when all three fields are invalid the keys are exactly
`customerId`, `amount`, `status`. -/
theorem validation_reports_every_failing_field (db : Persistence) (now : UTCTime)
    (table : Table) (id : String) (prevState : ActionState) (formData : FormData)
    (h : fieldMessages (parseCustomerId (formData.get "customerId")) ≠ none
      ∨ fieldMessages (parseAmount (formData.get "amount")) ≠ none
      ∨ fieldMessages (parseStatus (formData.get "status")) ≠ none) :
    ∃ errors : FieldErrors,
      createInvoice db now table prevState formData
        = ⟨[], table, .returned
            ⟨some errors, some "Missing Fields. Failed to Create Invoice."⟩⟩
      ∧ updateInvoice db table id prevState formData
        = ⟨[], table, .returned
            ⟨some errors, some "Missing Fields. Failed to Update Invoice."⟩⟩
      ∧ List.lookup "customerId" errors
          = fieldMessages (parseCustomerId (formData.get "customerId"))
      ∧ List.lookup "amount" errors = fieldMessages (parseAmount (formData.get "amount"))
      ∧ List.lookup "status" errors = fieldMessages (parseStatus (formData.get "status"))
      ∧ (∀ p ∈ errors, p.2 ≠ [])
      ∧ (fieldMessages (parseCustomerId (formData.get "customerId")) ≠ none →
          fieldMessages (parseAmount (formData.get "amount")) ≠ none →
          fieldMessages (parseStatus (formData.get "status")) ≠ none →
          errors.map Prod.fst = ["customerId", "amount", "status"]) := by
  have hparse := safeParse_error
    ⟨formData.get "customerId", formData.get "amount", formData.get "status"⟩ h
  obtain ⟨l1, l2, l3⟩ := lookup_flatten (parseCustomerId (formData.get "customerId"))
    (parseAmount (formData.get "amount")) (parseStatus (formData.get "status"))
  obtain ⟨s1, s2⟩ := flatten_shape (parseCustomerId (formData.get "customerId"))
    (parseAmount (formData.get "amount")) (parseStatus (formData.get "status"))
  exact ⟨_, createInvoice_of_error db now table prevState formData _ hparse,
    updateInvoice_of_error db table id prevState formData _ hparse, l1, l2, l3, s1, s2⟩

/-- Witness for C9 at a payload whose three fields are all invalid: no customerId,
amount "-3", status "unknown". -/
theorem validation_reports_every_failing_field_witness :
    ∃ errors : FieldErrors,
      createInvoice acceptAll sampleTime [] noState
          ⟨[("amount", .string "-3"), ("status", .string "unknown")]⟩
        = ⟨[], [], .returned
            ⟨some errors, some "Missing Fields. Failed to Create Invoice."⟩⟩
      ∧ List.lookup "customerId" errors = some ["Please select a customer."]
      ∧ List.lookup "amount" errors = some ["Please enter an amount greater than $0."]
      ∧ errors.map Prod.fst = ["customerId", "amount", "status"] := by
  obtain ⟨errors, h1, _, h3, h4, _, _, h7⟩ := validation_reports_every_failing_field
    acceptAll sampleTime [] "id" noState
    ⟨[("amount", .string "-3"), ("status", .string "unknown")]⟩ (Or.inl (by decide))
  exact ⟨errors, h1, h3.trans (by decide), h4.trans (by decide),
    h7 (by decide) (by decide) (by decide)⟩

/-- C10: every statement that `createInvoice` or `updateInvoice` issues carries an
amount parameter strictly greater than 0 and a status parameter that is exactly
`pending` or `paid`; hence, from a table in which every row has amount greater than 0
and status `pending` or `paid`, every sequence of create, update and delete
operations leaves a table in which every row does. -/
theorem written_rows_stay_valid (db : Persistence) :
    (∀ (now : UTCTime) (table : Table) (id : String) (prevState : ActionState)
        (formData : FormData) (st : Statement),
        (st ∈ statements (createInvoice db now table prevState formData).effects
          ∨ st ∈ statements (updateInvoice db table id prevState formData).effects) →
        st.ParamsValid)
    ∧ ∀ (ops : List Operation) (table : Table),
        (∀ r ∈ table, r.Valid) → ∀ r ∈ runAll db table ops, r.Valid := by
  have hcreate : ∀ (now : UTCTime) (table : Table) (prevState : ActionState)
      (formData : FormData),
      (∀ st ∈ statements (createInvoice db now table prevState formData).effects,
        st.ParamsValid)
      ∧ ((∀ r ∈ table, r.Valid) →
        ∀ r ∈ (createInvoice db now table prevState formData).table, r.Valid) := by
    intro now table prevState formData
    rcases createInvoice_cases db now table prevState formData with
      ⟨issues, _, hrun⟩ | ⟨data, hsp, ⟨_, hrun⟩ | ⟨_, hrun⟩⟩
    · rw [hrun]
      exact ⟨by simp [statements], fun ht => ht⟩
    · rw [hrun]
      obtain ⟨_, h2, h3⟩ := validated_params _ data hsp
      have hpv : Statement.ParamsValid (.insert data.customerId
          (data.amount.mul (JSNumber.ofNat 100)) data.status (String.mk (isoDate now))) := ⟨h2, h3⟩
      refine ⟨?_, fun ht => ht⟩
      intro st hst
      simp only [statements, List.mem_singleton] at hst
      rw [hst]
      exact hpv
    · rw [hrun]
      obtain ⟨_, h2, h3⟩ := validated_params _ data hsp
      have hpv : Statement.ParamsValid (.insert data.customerId
          (data.amount.mul (JSNumber.ofNat 100)) data.status (String.mk (isoDate now))) := ⟨h2, h3⟩
      refine ⟨?_, fun ht => apply_valid (db.newId table) _ _ hpv ht⟩
      intro st hst
      simp only [statements, List.mem_singleton] at hst
      rw [hst]
      exact hpv
  have hupdate : ∀ (table : Table) (id : String) (prevState : ActionState)
      (formData : FormData),
      (∀ st ∈ statements (updateInvoice db table id prevState formData).effects,
        st.ParamsValid)
      ∧ ((∀ r ∈ table, r.Valid) →
        ∀ r ∈ (updateInvoice db table id prevState formData).table, r.Valid) := by
    intro table id prevState formData
    rcases updateInvoice_cases db table id prevState formData with
      ⟨issues, _, hrun⟩ | ⟨data, hsp, ⟨_, hrun⟩ | ⟨_, hrun⟩⟩
    · rw [hrun]
      exact ⟨by simp [statements], fun ht => ht⟩
    · rw [hrun]
      obtain ⟨_, h2, h3⟩ := validated_params _ data hsp
      have hpv : Statement.ParamsValid (.update data.customerId
          (data.amount.mul (JSNumber.ofNat 100)) data.status id) := ⟨h2, h3⟩
      refine ⟨?_, fun ht => ht⟩
      intro st hst
      simp only [statements, List.mem_singleton] at hst
      rw [hst]
      exact hpv
    · rw [hrun]
      obtain ⟨_, h2, h3⟩ := validated_params _ data hsp
      have hpv : Statement.ParamsValid (.update data.customerId
          (data.amount.mul (JSNumber.ofNat 100)) data.status id) := ⟨h2, h3⟩
      refine ⟨?_, fun ht => apply_valid (db.newId table) _ _ hpv ht⟩
      intro st hst
      simp only [statements, List.mem_singleton] at hst
      rw [hst]
      exact hpv
  constructor
  · intro now table id prevState formData st hst
    rcases hst with hst | hst
    · exact (hcreate now table prevState formData).1 st hst
    · exact (hupdate table id prevState formData).1 st hst
  · intro ops
    induction ops with
    | nil => intro table ht; simpa [runAll] using ht
    | cons op ops ih =>
      intro table ht
      have hstep : ∀ r ∈ (op.run db table).table, r.Valid := by
        cases op with
        | create now prevState formData => exact (hcreate now table prevState formData).2 ht
        | update id prevState formData => exact (hupdate table id prevState formData).2 ht
        | delete id => exact ht
      have := ih (op.run db table).table hstep
      simpa [runAll] using this

/-- Witness for C10: a create with amount "19.99" followed by an update of the new
row to amount "0.5" and status "paid", and a delete, from the empty table. -/
theorem written_rows_stay_valid_witness :
    (Statement.insert "c1" (.fin false 8791694975696895 (-42)) "pending"
        "2024-03-07").ParamsValid
    ∧ ∀ r ∈ runAll acceptAll []
        [.create sampleTime noState (invoiceForm "c1" "19.99" "pending"),
          .update "new-id" noState (invoiceForm "c2" "0.5" "paid"),
          .delete "new-id"], r.Valid :=
  ⟨(written_rows_stay_valid acceptAll).1 sampleTime [] "new-id" noState
      (invoiceForm "c1" "19.99" "pending") _ (Or.inl (by decide)),
    (written_rows_stay_valid acceptAll).2 _ [] (by simp)⟩

end Actions
